import Mathlib

/-
Shallow embedding of the map-state-and-request component of the
Yandex.Maps desktop application (src/main.py).

Modelling conventions:
- Geographic coordinates and the pixel-to-coordinate arithmetic are
  modelled over the rationals, which compute the same values the
  formulas denote.
- Python integers (zoom level, pixel positions, HTTP status codes,
  wheel delta) are Int or Nat.
- Each network call is embedded as a pure function from the outcome of
  the underlying HTTP GET (connection failure, or a reply with a status
  code and an already-parsed body) to an exception-or-value result,
  mirroring the requests library: a connection failure raises, and
  response.raise_for_status raises on a status of 400 or above.
- The JSON bodies are modelled as already parsed into records; the
  string-level parsing of the pos field is abstracted into the lon and
  lat fields of a feature.
- The GUI handlers of MainWindow become functions from an AppState plus
  the event data plus the network outcomes consumed during the handler
  to the next AppState.  Outbound requests and dialog boxes are logged
  in the state so that frame conditions (no request issued, no dialog
  shown) are expressible.
-/

/-- Python exception kinds that the code under src/main.py can raise or
that the specification names.  The notFound constructor stands for the
dedicated NotFoundError kind named by the specification; the theorems
below settle whether the code ever produces it. -/
inductive PyErr where
  | connectionError
  | httpError (status : Nat)
  | indexError
  | typeError
  | notFound
deriving DecidableEq, Repr

/-- Outcome of one outbound HTTP GET, as seen by the caller of the
requests library: either the transport fails, or a reply arrives with a
status code and a parsed body. -/
inductive HttpOutcome (β : Type) where
  | connectionError
  | reply (status : Nat) (body : β)
deriving DecidableEq, Repr

/-- One member of the geocoder response list
response.GeoObjectCollection.featureMember, with the pos string already
split into lon and lat and the optional Address.postal_code field. -/
structure GeoFeature where
  lon : ℚ
  lat : ℚ
  text : String
  postal_code : Option String
deriving DecidableEq, Repr

/-- The record MapAPI.geocode returns on success. -/
structure GeocodeResult where
  lon : ℚ
  lat : ℚ
  address : String
deriving DecidableEq, Repr

/-- MapAPI.geocode (src/main.py lines 24-52): issue the geocoder GET,
raise for a non-success status, take featureMember[0] (raising
IndexError when the list is empty), and append the postal code to the
address when requested and present. -/
def geocode (o : HttpOutcome (List GeoFeature)) (postal_code : Bool) :
    Except PyErr GeocodeResult :=
  match o with
  | .connectionError => .error .connectionError
  | .reply status featureMember =>
    if 400 ≤ status then .error (.httpError status)
    else
      match featureMember with
      | [] => .error .indexError
      | feature :: _ =>
        let postal := feature.postal_code.getD ""
        let full_address :=
          if postal_code then
            if postal ≠ "" then feature.text ++ ", " ++ postal else feature.text
          else feature.text
        .ok { lon := feature.lon, lat := feature.lat, address := full_address }

/-- MapAPI.get_map_image (src/main.py lines 54-70): issue the static-map
GET, raise for a non-success status, and return the raw bytes, modelled
by a numeric content identifier. -/
def get_map_image (o : HttpOutcome Nat) : Except PyErr Nat :=
  match o with
  | .connectionError => .error .connectionError
  | .reply status content =>
    if 400 ≤ status then .error (.httpError status) else .ok content

/-- One feature of the place-search response with the two properties the
program reads. -/
structure PlaceFeature where
  name : String
  description : String
deriving DecidableEq, Repr

/-- Python value that a place search can return: the None object, or the
raw parsed JSON, of which the program only ever reads the features
list. -/
inductive SearchReturn where
  | none
  | raw (features : List PlaceFeature)
deriving DecidableEq, Repr

/-- MapAPI.search_places (src/main.py lines 72-84): issue the
place-search GET, raise for a non-success status, and return
response.json(), the raw parsed body, unconditionally. -/
def search_places (o : HttpOutcome (List PlaceFeature)) :
    Except PyErr SearchReturn :=
  match o with
  | .connectionError => .error .connectionError
  | .reply status features =>
    if 400 ≤ status then .error (.httpError status)
    else .ok (SearchReturn.raw features)

/-- One entry of self.points: a marker with a position and a color
style. -/
structure Marker where
  lon : ℚ
  lat : ℚ
  color : String
deriving DecidableEq, Repr

/-- Outbound request log entries, recording the parameters each MapAPI
call is given. -/
inductive Request where
  | geocodeText (query : String)
  | geocodeCoord (lon lat : ℚ)
  | mapFetch (lon lat : ℚ) (zoom : Int) (layer : String) (pts : List Marker)
  | placesSearch (lon lat : ℚ) (text : String)
deriving DecidableEq, Repr

/-- Dialog boxes the window can pop up: a critical error dialog from
show_error, or the information dialog of handle_right_click. -/
inductive Dialog where
  | error (title : String) (e : PyErr)
  | info (name description : String)
deriving DecidableEq, Repr

/-- The mutable state of MainWindow that the interaction handlers read
and write, together with the logs of requests issued and dialogs
shown. -/
structure AppState where
  lon : ℚ
  lat : ℚ
  zoom_level : Int
  map_type : String
  postal_code : Bool
  points : List Marker
  address_label : String
  displayed_image : Nat
  dialogs : List Dialog
  requests : List Request
deriving DecidableEq, Repr

/-- MainWindow.show_error (src/main.py lines 290-292): pop up a critical
dialog with the given title and exception text. -/
def show_error (st : AppState) (title : String) (e : PyErr) : AppState :=
  { st with dialogs := st.dialogs ++ [Dialog.error title e] }

/-- MainWindow.update_map (src/main.py lines 182-198): fetch the map
image for the current position, zoom, layer and markers; on success
write it to the scratch file and display it, on any exception show the
map-error dialog and keep the previous image. -/
def update_map (st : AppState) (o : HttpOutcome Nat) : AppState :=
  let st1 := { st with
    requests := st.requests ++
      [Request.mapFetch st.lon st.lat st.zoom_level st.map_type st.points] }
  match get_map_image o with
  | .ok img => { st1 with displayed_image := img }
  | .error e => show_error st1 "Ошибка карты" e

/-- The state MainWindow.__init__ builds (src/main.py lines 96-101):
Moscow center, zoom 12, scheme layer, postal codes hidden, no
markers. -/
def initState : AppState :=
  { lon := 37.620070, lat := 55.753630, zoom_level := 12, map_type := "map",
    postal_code := false, points := [], address_label := "Адрес не указан",
    displayed_image := 0, dialogs := [], requests := [] }

/-- Keys the keyPressEvent handler distinguishes; other covers every
other key. -/
inductive Key where
  | left | right | up | down | plus | pageUp | minus | pageDown | other
deriving DecidableEq, Repr

/-- MainWindow.keyPressEvent (src/main.py lines 208-226): arrows pan the
center by 0.2 * (1 / zoom) degrees, plus or PageUp clamps zoom up to
23, minus or PageDown clamps zoom down to 1, any other key is ignored;
every recognised key triggers update_map. -/
def keyPressEvent (st : AppState) (k : Key) (o : HttpOutcome Nat) : AppState :=
  let step : ℚ := (2 / 10 : ℚ) * (1 / (st.zoom_level : ℚ))
  match k with
  | Key.left => update_map { st with lon := st.lon - step } o
  | Key.right => update_map { st with lon := st.lon + step } o
  | Key.up => update_map { st with lat := st.lat + step } o
  | Key.down => update_map { st with lat := st.lat - step } o
  | Key.plus | Key.pageUp =>
      update_map { st with zoom_level := min (st.zoom_level + 1) 23 } o
  | Key.minus | Key.pageDown =>
      update_map { st with zoom_level := max (st.zoom_level - 1) 1 } o
  | Key.other => st

/-- MainWindow.wheelEvent (src/main.py lines 228-234): a positive wheel
delta clamps zoom up to 23, any other delta clamps it down to 1; both
trigger update_map. -/
def wheelEvent (st : AppState) (delta : Int) (o : HttpOutcome Nat) : AppState :=
  if 0 < delta then
    update_map { st with zoom_level := min (st.zoom_level + 1) 23 } o
  else
    update_map { st with zoom_level := max (st.zoom_level - 1) 1 } o

/-- MainWindow.handle_left_click (src/main.py lines 242-264): translate
the window position into map-label coordinates (the label sits at
(10, 10)), ignore clicks outside 0..780 x 0..450, convert the pixel to
a geographic coordinate with the linear formula, reverse-geocode it,
append a marker at the geocoded position, set the address label and
refresh the map; a geocoding exception only shows a dialog. -/
def handle_left_click (st : AppState) (pos_x pos_y : Int)
    (geo : HttpOutcome (List GeoFeature)) (o : HttpOutcome Nat) : AppState :=
  let img_x := pos_x - 10
  let img_y := pos_y - 10
  if 0 ≤ img_x ∧ img_x ≤ 780 ∧ 0 ≤ img_y ∧ img_y ≤ 450 then
    let lon := st.lon +
      ((img_x : ℚ) - 390) * ((2 / 1000 : ℚ) * ((19 : ℚ) - (st.zoom_level : ℚ)))
    let lat := st.lat -
      ((img_y : ℚ) - 225) * ((1 / 1000 : ℚ) * ((19 : ℚ) - (st.zoom_level : ℚ)))
    let st1 := { st with requests := st.requests ++ [Request.geocodeCoord lon lat] }
    match geocode geo st.postal_code with
    | .ok result =>
      update_map { st1 with
        points := st1.points ++ [{ lon := result.lon, lat := result.lat, color := "db" }],
        address_label := result.address } o
    | .error e => show_error st1 "Ошибка геокодирования" e
  else st

/-- MainWindow.handle_right_click (src/main.py lines 266-288): with no
markers do nothing; otherwise search places near the current center
with the address-label text, show an information dialog for the first
feature when one exists, and show an error dialog on any exception
(including the TypeError that subscripting a None return would
raise). -/
def handle_right_click (st : AppState) (o : HttpOutcome (List PlaceFeature)) :
    AppState :=
  if st.points = [] then st
  else
    let st1 := { st with
      requests := st.requests ++ [Request.placesSearch st.lon st.lat st.address_label] }
    match search_places o with
    | .error e => show_error st1 "Ошибка поиска" e
    | .ok SearchReturn.none => show_error st1 "Ошибка поиска" PyErr.typeError
    | .ok (SearchReturn.raw []) => st1
    | .ok (SearchReturn.raw (place :: _)) =>
      { st1 with dialogs := st1.dialogs ++ [Dialog.info place.name place.description] }

/-- MainWindow.search_location (src/main.py lines 159-180): an empty
query does nothing; otherwise geocode the query, move the center to the
result, replace the marker list with a single marker there, set the
address label, force zoom 15 and refresh the map; a geocoding exception
only shows a dialog. -/
def search_location (st : AppState) (query : String)
    (geo : HttpOutcome (List GeoFeature)) (o : HttpOutcome Nat) : AppState :=
  if query = "" then st
  else
    let st1 := { st with requests := st.requests ++ [Request.geocodeText query] }
    match geocode geo st.postal_code with
    | .ok result =>
      update_map { st1 with
        lon := result.lon, lat := result.lat,
        points := [{ lon := result.lon, lat := result.lat, color := "db" }],
        address_label := result.address,
        zoom_level := 15 } o
    | .error e => show_error st1 "Ошибка поиска" e

/-- The combo-box label to layer-code dictionary of
MainWindow.change_map_type, with the dictionary-get default of
"map". -/
def type_mapping (label : String) : String :=
  if label = "Схема" then "map"
  else if label = "Спутник" then "sat"
  else if label = "Гибрид" then "sat,skl"
  else "map"

/-- MainWindow.change_map_type (src/main.py lines 145-152): set the
layer from the combo label and refresh the map. -/
def change_map_type (st : AppState) (label : String) (o : HttpOutcome Nat) :
    AppState :=
  update_map { st with map_type := type_mapping label } o

/-- MainWindow.toggle_postal_code (src/main.py lines 154-157): record
whether postal codes are shown, and refresh the map only when markers
exist. -/
def toggle_postal_code (st : AppState) (label : String) (o : HttpOutcome Nat) :
    AppState :=
  let st1 := { st with postal_code := label == "Показать индекс" }
  if st1.points = [] then st1 else update_map st1 o

/-- The discrete input events the window reacts to. -/
inductive Event where
  | keyPress (k : Key)
  | wheel (delta : Int)
  | leftClick (x y : Int)
  | rightClick
  | searchSubmit (query : String)
  | layerChange (label : String)
  | postalToggle (label : String)
deriving DecidableEq, Repr

/-- The network outcomes available to one interaction: the geocoder
reply, the static-map reply and the place-search reply. -/
structure Env where
  geo : HttpOutcome (List GeoFeature)
  img : HttpOutcome Nat
  places : HttpOutcome (List PlaceFeature)
deriving DecidableEq, Repr

/-- Dispatch of one input event to its MainWindow handler, following the
signal connections and the mousePressEvent split of src/main.py. -/
def handle_event (st : AppState) (e : Event) (env : Env) : AppState :=
  match e with
  | Event.keyPress k => keyPressEvent st k env.img
  | Event.wheel d => wheelEvent st d env.img
  | Event.leftClick x y => handle_left_click st x y env.geo env.img
  | Event.rightClick => handle_right_click st env.places
  | Event.searchSubmit q => search_location st q env.geo env.img
  | Event.layerChange l => change_map_type st l env.img
  | Event.postalToggle l => toggle_postal_code st l env.img

theorem update_map_lon (st : AppState) (o : HttpOutcome Nat) :
    (update_map st o).lon = st.lon := by
  cases h : get_map_image o <;> simp [update_map, show_error, h]

theorem update_map_lat (st : AppState) (o : HttpOutcome Nat) :
    (update_map st o).lat = st.lat := by
  cases h : get_map_image o <;> simp [update_map, show_error, h]

theorem update_map_zoom (st : AppState) (o : HttpOutcome Nat) :
    (update_map st o).zoom_level = st.zoom_level := by
  cases h : get_map_image o <;> simp [update_map, show_error, h]

theorem update_map_map_type (st : AppState) (o : HttpOutcome Nat) :
    (update_map st o).map_type = st.map_type := by
  cases h : get_map_image o <;> simp [update_map, show_error, h]

theorem update_map_postal (st : AppState) (o : HttpOutcome Nat) :
    (update_map st o).postal_code = st.postal_code := by
  cases h : get_map_image o <;> simp [update_map, show_error, h]

theorem update_map_points (st : AppState) (o : HttpOutcome Nat) :
    (update_map st o).points = st.points := by
  cases h : get_map_image o <;> simp [update_map, show_error, h]

theorem update_map_address (st : AppState) (o : HttpOutcome Nat) :
    (update_map st o).address_label = st.address_label := by
  cases h : get_map_image o <;> simp [update_map, show_error, h]

theorem update_map_requests (st : AppState) (o : HttpOutcome Nat) :
    (update_map st o).requests = st.requests ++
      [Request.mapFetch st.lon st.lat st.zoom_level st.map_type st.points] := by
  cases h : get_map_image o <;> simp [update_map, show_error, h]

theorem update_map_fail (st : AppState) (o : HttpOutcome Nat) (e : PyErr)
    (h : get_map_image o = Except.error e) :
    (update_map st o).displayed_image = st.displayed_image ∧
    (update_map st o).dialogs = st.dialogs ++ [Dialog.error "Ошибка карты" e] := by
  simp [update_map, show_error, h]

/-- C9: a left click whose pixel position falls outside the 780x450 map
display area (its map-label coordinates fail the bounds check
0..780 x 0..450) is a complete no-op: the whole state, including
center, zoom, markers, address label, request log and dialog log, is
unchanged, so no geocode request is issued and no map fetch occurs. -/
theorem left_click_outside_is_noop (st : AppState) (px py : Int)
    (geo : HttpOutcome (List GeoFeature)) (o : HttpOutcome Nat)
    (h : ¬ (0 ≤ px - 10 ∧ px - 10 ≤ 780 ∧ 0 ≤ py - 10 ∧ py - 10 ≤ 450)) :
    handle_left_click st px py geo o = st := by
  simp only [handle_left_click]
  rw [if_neg h]

/-- Witness for C9: a click at window position (0, 0), which lies left
of and above the map label, leaves the initial state untouched. -/
theorem left_click_outside_is_noop_witness :
    (¬ ((0 : Int) ≤ 0 - 10 ∧ (0 : Int) - 10 ≤ 780 ∧
        (0 : Int) ≤ 0 - 10 ∧ (0 : Int) - 10 ≤ 450)) ∧
    handle_left_click initState 0 0 (HttpOutcome.reply 200 [])
      (HttpOutcome.reply 200 7) = initState :=
  ⟨by decide,
   left_click_outside_is_noop initState 0 0 (HttpOutcome.reply 200 [])
     (HttpOutcome.reply 200 7) (by decide)⟩

/-- C1: for every state and every left click whose map-label pixel is
(x, y) with 0 <= x <= 780 and 0 <= y <= 450 (the window position is
(x + 10, y + 10) because the map label sits at (10, 10)), the
geographic coordinate the click handler computes and sends to the
geocoder is lon = center.lon + (x - 390) * 0.002 * (19 - zoom) and
lat = center.lat - (y - 225) * 0.001 * (19 - zoom); in particular the
center pixel (390, 225) yields exactly the current center. -/
theorem click_to_coordinate_formula (st : AppState) (x y : Int)
    (geo : HttpOutcome (List GeoFeature)) (o : HttpOutcome Nat)
    (hx0 : 0 ≤ x) (hx1 : x ≤ 780) (hy0 : 0 ≤ y) (hy1 : y ≤ 450) :
    (∃ rest, (handle_left_click st (x + 10) (y + 10) geo o).requests =
      st.requests ++ [Request.geocodeCoord
        (st.lon + ((x : ℚ) - 390) * (2 / 1000 : ℚ) * ((19 : ℚ) - (st.zoom_level : ℚ)))
        (st.lat - ((y : ℚ) - 225) * (1 / 1000 : ℚ) * ((19 : ℚ) - (st.zoom_level : ℚ)))] ++ rest) ∧
    (x = 390 → y = 225 →
      ∃ rest, (handle_left_click st (x + 10) (y + 10) geo o).requests =
        st.requests ++ [Request.geocodeCoord st.lon st.lat] ++ rest) := by
  have hcond : 0 ≤ x + 10 - 10 ∧ x + 10 - 10 ≤ 780 ∧ 0 ≤ y + 10 - 10 ∧ y + 10 - 10 ≤ 450 := by
    omega
  have hlon : st.lon + (((x + 10 - 10 : ℤ) : ℚ) - 390) *
      ((2 / 1000 : ℚ) * ((19 : ℚ) - (st.zoom_level : ℚ))) =
      st.lon + ((x : ℚ) - 390) * (2 / 1000 : ℚ) * ((19 : ℚ) - (st.zoom_level : ℚ)) := by
    push_cast
    ring
  have hlat : st.lat - (((y + 10 - 10 : ℤ) : ℚ) - 225) *
      ((1 / 1000 : ℚ) * ((19 : ℚ) - (st.zoom_level : ℚ))) =
      st.lat - ((y : ℚ) - 225) * (1 / 1000 : ℚ) * ((19 : ℚ) - (st.zoom_level : ℚ)) := by
    push_cast
    ring
  constructor
  · simp only [handle_left_click]
    rw [if_pos hcond, hlon, hlat]
    cases hg : geocode geo st.postal_code with
    | ok r =>
      refine ⟨[Request.mapFetch st.lon st.lat st.zoom_level st.map_type
        (st.points ++ [{ lon := r.lon, lat := r.lat, color := "db" }])], ?_⟩
      simp [hg, update_map_requests]
    | error e =>
      refine ⟨[], ?_⟩
      simp [hg, show_error]
  · intro hx hy
    subst hx hy
    simp only [handle_left_click]
    rw [if_pos hcond]
    have h390 : st.lon + (((390 + 10 - 10 : ℤ) : ℚ) - 390) *
        ((2 / 1000 : ℚ) * ((19 : ℚ) - (st.zoom_level : ℚ))) = st.lon := by
      norm_num
    have h225 : st.lat - (((225 + 10 - 10 : ℤ) : ℚ) - 225) *
        ((1 / 1000 : ℚ) * ((19 : ℚ) - (st.zoom_level : ℚ))) = st.lat := by
      norm_num
    rw [h390, h225]
    cases hg : geocode geo st.postal_code with
    | ok r =>
      refine ⟨[Request.mapFetch st.lon st.lat st.zoom_level st.map_type
        (st.points ++ [{ lon := r.lon, lat := r.lat, color := "db" }])], ?_⟩
      simp [hg, update_map_requests]
    | error e =>
      refine ⟨[], ?_⟩
      simp [hg, show_error]

/-- Witness for C1: from the initial state, a click at the exact center
pixel (390, 225) of the map label sends the current center to the
geocoder. -/
theorem click_to_coordinate_formula_witness :
    ((0 : Int) ≤ 390 ∧ (390 : Int) ≤ 780 ∧ (0 : Int) ≤ 225 ∧ (225 : Int) ≤ 450) ∧
    (∃ rest, (handle_left_click initState (390 + 10) (225 + 10)
        (HttpOutcome.reply 200 []) (HttpOutcome.reply 200 7)).requests =
      initState.requests ++ [Request.geocodeCoord initState.lon initState.lat] ++ rest) :=
  ⟨by decide,
   (click_to_coordinate_formula initState 390 225 (HttpOutcome.reply 200 [])
     (HttpOutcome.reply 200 7) (by decide) (by decide) (by decide) (by decide)).2
     rfl rfl⟩

/-- C2: a successful text search replaces the whole marker list with
exactly one marker at the geocoded coordinate, while a successful map
left click appends one marker at the geocoded coordinate to the
existing list without removing any prior marker. -/
theorem search_replaces_markers_click_appends :
    (∀ (st : AppState) (q : String) (geo : HttpOutcome (List GeoFeature))
        (o : HttpOutcome Nat) (r : GeocodeResult),
      q ≠ "" → geocode geo st.postal_code = Except.ok r →
      (search_location st q geo o).points =
        [{ lon := r.lon, lat := r.lat, color := "db" }]) ∧
    (∀ (st : AppState) (px py : Int) (geo : HttpOutcome (List GeoFeature))
        (o : HttpOutcome Nat) (r : GeocodeResult),
      (0 ≤ px - 10 ∧ px - 10 ≤ 780 ∧ 0 ≤ py - 10 ∧ py - 10 ≤ 450) →
      geocode geo st.postal_code = Except.ok r →
      (handle_left_click st px py geo o).points =
        st.points ++ [{ lon := r.lon, lat := r.lat, color := "db" }]) := by
  constructor
  · intro st q geo o r hq hg
    simp only [search_location]
    rw [if_neg hq]
    simp [hg, update_map_points]
  · intro st px py geo o r h hg
    simp only [handle_left_click]
    rw [if_pos h]
    simp [hg, update_map_points]

/-- Witness for C2: a successful search from the initial state leaves
exactly the one geocoded marker. -/
theorem search_replaces_markers_click_appends_witness :
    ("Кремль" ≠ "" ∧
      geocode (HttpOutcome.reply 200 [⟨37, 55, "Тверская", Option.none⟩])
        initState.postal_code = Except.ok ⟨37, 55, "Тверская"⟩) ∧
    (search_location initState "Кремль"
        (HttpOutcome.reply 200 [⟨37, 55, "Тверская", Option.none⟩])
        (HttpOutcome.reply 200 7)).points =
      [{ lon := 37, lat := 55, color := "db" }] :=
  ⟨⟨by decide, rfl⟩,
   search_replaces_markers_click_appends.1 initState "Кремль"
     (HttpOutcome.reply 200 [⟨37, 55, "Тверская", Option.none⟩])
     (HttpOutcome.reply 200 7) ⟨37, 55, "Тверская"⟩ (by decide) rfl⟩

/-- C3: from any starting zoom, the zoom-in keys produce
min(zoom + 1, 23) and the zoom-out keys produce max(zoom - 1, 1), and
the scroll wheel does the same for positive and negative deltas; for
zoom in [1, 23] the result stays in [1, 23]; zoom-in followed by
zoom-out restores any starting zoom below 23, on the key path as well
as the wheel path; zoom-in at 23 and zoom-out at 1 leave the zoom
unchanged. -/
theorem zoom_clamped_and_inverse :
    (∀ (st : AppState) (o : HttpOutcome Nat),
      (keyPressEvent st Key.plus o).zoom_level = min (st.zoom_level + 1) 23 ∧
      (keyPressEvent st Key.pageUp o).zoom_level = min (st.zoom_level + 1) 23 ∧
      (keyPressEvent st Key.minus o).zoom_level = max (st.zoom_level - 1) 1 ∧
      (keyPressEvent st Key.pageDown o).zoom_level = max (st.zoom_level - 1) 1) ∧
    (∀ (st : AppState) (d : Int) (o : HttpOutcome Nat),
      (0 < d → (wheelEvent st d o).zoom_level = min (st.zoom_level + 1) 23) ∧
      (d < 0 → (wheelEvent st d o).zoom_level = max (st.zoom_level - 1) 1)) ∧
    (∀ (st : AppState) (o : HttpOutcome Nat),
      1 ≤ st.zoom_level → st.zoom_level ≤ 23 →
      (1 ≤ (keyPressEvent st Key.plus o).zoom_level ∧
        (keyPressEvent st Key.plus o).zoom_level ≤ 23) ∧
      (1 ≤ (keyPressEvent st Key.minus o).zoom_level ∧
        (keyPressEvent st Key.minus o).zoom_level ≤ 23)) ∧
    (∀ (st : AppState) (o o2 : HttpOutcome Nat),
      1 ≤ st.zoom_level → st.zoom_level < 23 →
      (keyPressEvent (keyPressEvent st Key.plus o) Key.minus o2).zoom_level = st.zoom_level ∧
      (wheelEvent (wheelEvent st 120 o) (-120) o2).zoom_level = st.zoom_level) ∧
    (∀ (st : AppState) (o : HttpOutcome Nat),
      (st.zoom_level = 23 → (keyPressEvent st Key.plus o).zoom_level = 23) ∧
      (st.zoom_level = 1 → (keyPressEvent st Key.minus o).zoom_level = 1)) := by
  refine ⟨?_, ?_, ?_, ?_, ?_⟩
  · intro st o
    simp [keyPressEvent, update_map_zoom]
  · intro st d o
    constructor
    · intro hd
      simp [wheelEvent, if_pos hd, update_map_zoom]
    · intro hd
      have hnd : ¬ 0 < d := by omega
      simp [wheelEvent, if_neg hnd, update_map_zoom]
  · intro st o h1 h23
    simp only [keyPressEvent, update_map_zoom]
    omega
  · intro st o o2 h1 h23
    constructor
    · simp only [keyPressEvent, update_map_zoom]
      omega
    · have h120 : (0 : Int) < 120 := by decide
      have hneg : ¬ (0 : Int) < -120 := by decide
      simp only [wheelEvent, if_pos h120, if_neg hneg, update_map_zoom]
      omega
  · intro st o
    constructor
    · intro h
      simp [keyPressEvent, update_map_zoom, h]
    · intro h
      simp [keyPressEvent, update_map_zoom, h]

/-- Witness for C3: from the initial zoom 12, zoom-in then zoom-out
restores 12 on both the key path and the wheel path. -/
theorem zoom_clamped_and_inverse_witness :
    ((1 : Int) ≤ initState.zoom_level ∧ initState.zoom_level < 23) ∧
    ((keyPressEvent (keyPressEvent initState Key.plus (HttpOutcome.reply 200 7))
        Key.minus (HttpOutcome.reply 200 7)).zoom_level = initState.zoom_level ∧
     (wheelEvent (wheelEvent initState 120 (HttpOutcome.reply 200 7))
        (-120) (HttpOutcome.reply 200 7)).zoom_level = initState.zoom_level) :=
  ⟨⟨by decide, by decide⟩,
   zoom_clamped_and_inverse.2.2.2.1 initState (HttpOutcome.reply 200 7)
     (HttpOutcome.reply 200 7) (by decide) (by decide)⟩

/-- C4: a keyboard pan event changes exactly the corresponding center
component by 0.2 / zoom degrees (left and right subtract from and add
to the longitude, up and down add to and subtract from the latitude,
the other component staying put), and pressing left then right returns
the center exactly to its original value. -/
theorem pan_step_and_inverse (st : AppState) (o o2 : HttpOutcome Nat)
    (_hz : 1 ≤ st.zoom_level) :
    ((keyPressEvent st Key.left o).lon = st.lon - (0.2 : ℚ) / (st.zoom_level : ℚ) ∧
     (keyPressEvent st Key.left o).lat = st.lat) ∧
    ((keyPressEvent st Key.right o).lon = st.lon + (0.2 : ℚ) / (st.zoom_level : ℚ) ∧
     (keyPressEvent st Key.right o).lat = st.lat) ∧
    ((keyPressEvent st Key.up o).lat = st.lat + (0.2 : ℚ) / (st.zoom_level : ℚ) ∧
     (keyPressEvent st Key.up o).lon = st.lon) ∧
    ((keyPressEvent st Key.down o).lat = st.lat - (0.2 : ℚ) / (st.zoom_level : ℚ) ∧
     (keyPressEvent st Key.down o).lon = st.lon) ∧
    ((keyPressEvent (keyPressEvent st Key.left o) Key.right o2).lon = st.lon ∧
     (keyPressEvent (keyPressEvent st Key.left o) Key.right o2).lat = st.lat) := by
  have hstep : (2 / 10 : ℚ) * (1 / (st.zoom_level : ℚ)) =
      (0.2 : ℚ) / (st.zoom_level : ℚ) := by
    rw [mul_one_div]
    norm_num
  refine ⟨⟨?_, ?_⟩, ⟨?_, ?_⟩, ⟨?_, ?_⟩, ⟨?_, ?_⟩, ?_, ?_⟩ <;>
    simp [keyPressEvent, update_map_lon, update_map_lat, update_map_zoom, hstep] <;>
    ring

/-- Witness for C4: from the initial state at zoom 12, pressing left
then right restores the Moscow center exactly. -/
theorem pan_step_and_inverse_witness :
    ((1 : Int) ≤ initState.zoom_level) ∧
    ((keyPressEvent (keyPressEvent initState Key.left (HttpOutcome.reply 200 7))
        Key.right (HttpOutcome.reply 200 7)).lon = initState.lon ∧
     (keyPressEvent (keyPressEvent initState Key.left (HttpOutcome.reply 200 7))
        Key.right (HttpOutcome.reply 200 7)).lat = initState.lat) :=
  ⟨by decide,
   (pan_step_and_inverse initState (HttpOutcome.reply 200 7)
     (HttpOutcome.reply 200 7) (by decide)).2.2.2.2⟩

/-- Counterexample to C5: on a successful reply with zero features the
geocode operation fails with the generic IndexError of indexing the
empty featureMember list, which is not the dedicated NotFoundError
kind the claim requires. -/
theorem geocode_zero_features_counterexample :
    geocode (HttpOutcome.reply 200 []) false = Except.error PyErr.indexError ∧
    PyErr.indexError ≠ PyErr.notFound :=
  ⟨rfl, by decide⟩

/-- C5 amended: a geocode call whose provider response contains zero
features fails with the generic IndexError raised by indexing the
empty feature list (there is no dedicated not-found error kind), and
the search handler catches that exception and turns it into an error
dialog, so the session survives. -/
theorem geocode_zero_features_index_error :
    (∀ (status : Nat) (pc : Bool), status < 400 →
      geocode (HttpOutcome.reply status []) pc = Except.error PyErr.indexError) ∧
    (∀ (st : AppState) (q : String) (o : HttpOutcome Nat) (status : Nat),
      q ≠ "" → status < 400 →
      search_location st q (HttpOutcome.reply status []) o =
        show_error { st with requests := st.requests ++ [Request.geocodeText q] }
          "Ошибка поиска" PyErr.indexError) := by
  constructor
  · intro status pc h
    have hn : ¬ 400 ≤ status := by omega
    simp [geocode, hn]
  · intro st q o status hq h
    have hn : ¬ 400 ≤ status := by omega
    simp only [search_location]
    rw [if_neg hq]
    simp [geocode, hn]

/-- Witness for the amended C5: a 200 reply with zero features makes
geocode fail with IndexError. -/
theorem geocode_zero_features_index_error_witness :
    (200 < 400) ∧
    geocode (HttpOutcome.reply 200 []) false = Except.error PyErr.indexError :=
  ⟨by decide, geocode_zero_features_index_error.1 200 false (by decide)⟩

/-- Counterexample to C6: on a successful reply with an empty result set
search_places returns the raw parsed body, not the None absence
value. -/
theorem search_places_empty_counterexample :
    search_places (HttpOutcome.reply 200 []) = Except.ok (SearchReturn.raw []) ∧
    SearchReturn.raw [] ≠ SearchReturn.none :=
  ⟨rfl, by decide⟩

/-- C6 amended: search_places always returns the raw parsed response on
a successful status, including the empty feature list (never the None
object); errors arise exactly from transport failure or a non-success
status; the right-click caller treats an empty feature list as absence
by showing no dialog. -/
theorem search_places_returns_raw :
    (∀ (status : Nat) (features : List PlaceFeature), status < 400 →
      search_places (HttpOutcome.reply status features) =
        Except.ok (SearchReturn.raw features)) ∧
    (∀ (status : Nat) (features : List PlaceFeature), 400 ≤ status →
      search_places (HttpOutcome.reply status features) =
        Except.error (PyErr.httpError status)) ∧
    (search_places HttpOutcome.connectionError =
      Except.error PyErr.connectionError) ∧
    (∀ (st : AppState) (status : Nat), st.points ≠ [] → status < 400 →
      handle_right_click st (HttpOutcome.reply status []) =
        { st with requests := st.requests ++
            [Request.placesSearch st.lon st.lat st.address_label] }) := by
  refine ⟨?_, ?_, rfl, ?_⟩
  · intro status features h
    have hn : ¬ 400 ≤ status := by omega
    simp [search_places, hn]
  · intro status features h
    simp [search_places, h]
  · intro st status hp h
    have hn : ¬ 400 ≤ status := by omega
    simp only [handle_right_click]
    rw [if_neg hp]
    simp [search_places, hn]

/-- Witness for the amended C6: a 200 reply with an empty result set
makes search_places return the raw body with the empty feature
list. -/
theorem search_places_returns_raw_witness :
    (200 < 400) ∧
    search_places (HttpOutcome.reply 200 []) = Except.ok (SearchReturn.raw []) :=
  ⟨by decide, search_places_returns_raw.1 200 [] (by decide)⟩

theorem handle_left_click_zoom (st : AppState) (px py : Int)
    (geo : HttpOutcome (List GeoFeature)) (o : HttpOutcome Nat) :
    (handle_left_click st px py geo o).zoom_level = st.zoom_level := by
  simp only [handle_left_click]
  split
  · cases hg : geocode geo st.postal_code <;> simp [hg, update_map_zoom, show_error]
  · rfl

theorem handle_right_click_zoom (st : AppState) (o : HttpOutcome (List PlaceFeature)) :
    (handle_right_click st o).zoom_level = st.zoom_level := by
  simp only [handle_right_click]
  split
  · rfl
  · split <;> simp [show_error]

theorem toggle_postal_code_zoom (st : AppState) (label : String) (o : HttpOutcome Nat) :
    (toggle_postal_code st label o).zoom_level = st.zoom_level := by
  simp only [toggle_postal_code]
  split <;> simp [update_map_zoom]

/-- C10: a right click performs a place search exactly when the marker
list is non-empty; with markers present it logs one place-search
request built from the current center and the address-label text, and
with no markers it is a complete no-op that issues no request and
changes no state. -/
theorem right_click_requires_markers :
    (∀ (st : AppState) (o : HttpOutcome (List PlaceFeature)),
      st.points = [] → handle_right_click st o = st) ∧
    (∀ (st : AppState) (o : HttpOutcome (List PlaceFeature)),
      st.points ≠ [] →
      (handle_right_click st o).requests =
        st.requests ++ [Request.placesSearch st.lon st.lat st.address_label]) := by
  constructor
  · intro st o h
    simp [handle_right_click, h]
  · intro st o h
    simp only [handle_right_click]
    rw [if_neg h]
    split <;> simp [show_error]

/-- Witness for C10: in the initial state, which has no markers, a right
click changes nothing. -/
theorem right_click_requires_markers_witness :
    initState.points = [] ∧
    handle_right_click initState (HttpOutcome.reply 200 []) = initState :=
  ⟨rfl, right_click_requires_markers.1 initState (HttpOutcome.reply 200 []) rfl⟩

/-- C8: every successful text-search submit sets the zoom level to 15
regardless of the zoom before the search, and among all interactions
only a search submit, the zoom keys (plus, PageUp, minus, PageDown)
and the scroll wheel can change the zoom level. -/
theorem search_forces_zoom_15 :
    (∀ (st : AppState) (q : String) (env : Env) (r : GeocodeResult),
      q ≠ "" → geocode env.geo st.postal_code = Except.ok r →
      (handle_event st (Event.searchSubmit q) env).zoom_level = 15) ∧
    (∀ (st : AppState) (e : Event) (env : Env),
      (handle_event st e env).zoom_level ≠ st.zoom_level →
      (∃ q, e = Event.searchSubmit q) ∨
      (e = Event.keyPress Key.plus ∨ e = Event.keyPress Key.pageUp ∨
       e = Event.keyPress Key.minus ∨ e = Event.keyPress Key.pageDown) ∨
      (∃ d, e = Event.wheel d)) := by
  constructor
  · intro st q env r hq hg
    simp only [handle_event, search_location]
    rw [if_neg hq]
    simp [hg, update_map_zoom]
  · intro st e env hne
    cases e with
    | keyPress k =>
      cases k with
      | left => exact absurd (by simp [handle_event, keyPressEvent, update_map_zoom]) hne
      | right => exact absurd (by simp [handle_event, keyPressEvent, update_map_zoom]) hne
      | up => exact absurd (by simp [handle_event, keyPressEvent, update_map_zoom]) hne
      | down => exact absurd (by simp [handle_event, keyPressEvent, update_map_zoom]) hne
      | plus => exact Or.inr (Or.inl (Or.inl rfl))
      | pageUp => exact Or.inr (Or.inl (Or.inr (Or.inl rfl)))
      | minus => exact Or.inr (Or.inl (Or.inr (Or.inr (Or.inl rfl))))
      | pageDown => exact Or.inr (Or.inl (Or.inr (Or.inr (Or.inr rfl))))
      | other => exact absurd rfl hne
    | wheel d => exact Or.inr (Or.inr ⟨d, rfl⟩)
    | leftClick x y =>
      exact absurd (handle_left_click_zoom st x y env.geo env.img) hne
    | rightClick =>
      exact absurd (handle_right_click_zoom st env.places) hne
    | searchSubmit q => exact Or.inl ⟨q, rfl⟩
    | layerChange l =>
      exact absurd (by simp [handle_event, change_map_type, update_map_zoom]) hne
    | postalToggle l =>
      exact absurd (toggle_postal_code_zoom st l env.img) hne

/-- Witness for C8: a successful search from the initial state at zoom
12 leaves the zoom at 15. -/
theorem search_forces_zoom_15_witness :
    ("Кремль" ≠ "" ∧
      geocode (HttpOutcome.reply 200 [⟨37, 55, "Тверская", Option.none⟩])
        initState.postal_code = Except.ok ⟨37, 55, "Тверская"⟩) ∧
    (handle_event initState (Event.searchSubmit "Кремль")
      ⟨HttpOutcome.reply 200 [⟨37, 55, "Тверская", Option.none⟩],
        HttpOutcome.reply 200 7, HttpOutcome.reply 200 []⟩).zoom_level = 15 :=
  ⟨⟨by decide, rfl⟩,
   search_forces_zoom_15.1 initState "Кремль"
     ⟨HttpOutcome.reply 200 [⟨37, 55, "Тверская", Option.none⟩],
       HttpOutcome.reply 200 7, HttpOutcome.reply 200 []⟩
     ⟨37, 55, "Тверская"⟩ (by decide) rfl⟩

/-- C7: for every interaction that first mutates viewport state and then
fetches the map (pan, zoom by key or wheel, layer change, search, left
click), when the fetch fails with any error the handler catches it and
appends exactly one user-visible error dialog, the displayed image
stays the previous one, and the state mutation that preceded the fetch
remains in effect (panned center, clamped zoom, new layer, new center
with marker and zoom 15 for search, appended marker and new address
for click). -/
theorem fetch_failure_keeps_mutation_and_old_image :
    (∀ (st : AppState) (o : HttpOutcome Nat) (err : PyErr),
      get_map_image o = Except.error err →
      (keyPressEvent st Key.left o).displayed_image = st.displayed_image ∧
      (keyPressEvent st Key.left o).dialogs =
        st.dialogs ++ [Dialog.error "Ошибка карты" err] ∧
      (keyPressEvent st Key.left o).lon =
        st.lon - (2 / 10 : ℚ) * (1 / (st.zoom_level : ℚ))) ∧
    (∀ (st : AppState) (o : HttpOutcome Nat) (err : PyErr),
      get_map_image o = Except.error err →
      (keyPressEvent st Key.plus o).displayed_image = st.displayed_image ∧
      (keyPressEvent st Key.plus o).dialogs =
        st.dialogs ++ [Dialog.error "Ошибка карты" err] ∧
      (keyPressEvent st Key.plus o).zoom_level = min (st.zoom_level + 1) 23) ∧
    (∀ (st : AppState) (d : Int) (o : HttpOutcome Nat) (err : PyErr),
      0 < d → get_map_image o = Except.error err →
      (wheelEvent st d o).displayed_image = st.displayed_image ∧
      (wheelEvent st d o).dialogs = st.dialogs ++ [Dialog.error "Ошибка карты" err] ∧
      (wheelEvent st d o).zoom_level = min (st.zoom_level + 1) 23) ∧
    (∀ (st : AppState) (label : String) (o : HttpOutcome Nat) (err : PyErr),
      get_map_image o = Except.error err →
      (change_map_type st label o).displayed_image = st.displayed_image ∧
      (change_map_type st label o).dialogs =
        st.dialogs ++ [Dialog.error "Ошибка карты" err] ∧
      (change_map_type st label o).map_type = type_mapping label) ∧
    (∀ (st : AppState) (q : String) (geo : HttpOutcome (List GeoFeature))
        (o : HttpOutcome Nat) (r : GeocodeResult) (err : PyErr),
      q ≠ "" → geocode geo st.postal_code = Except.ok r →
      get_map_image o = Except.error err →
      (search_location st q geo o).displayed_image = st.displayed_image ∧
      (search_location st q geo o).dialogs =
        st.dialogs ++ [Dialog.error "Ошибка карты" err] ∧
      (search_location st q geo o).lon = r.lon ∧
      (search_location st q geo o).lat = r.lat ∧
      (search_location st q geo o).zoom_level = 15 ∧
      (search_location st q geo o).points =
        [{ lon := r.lon, lat := r.lat, color := "db" }]) ∧
    (∀ (st : AppState) (px py : Int) (geo : HttpOutcome (List GeoFeature))
        (o : HttpOutcome Nat) (r : GeocodeResult) (err : PyErr),
      (0 ≤ px - 10 ∧ px - 10 ≤ 780 ∧ 0 ≤ py - 10 ∧ py - 10 ≤ 450) →
      geocode geo st.postal_code = Except.ok r →
      get_map_image o = Except.error err →
      (handle_left_click st px py geo o).displayed_image = st.displayed_image ∧
      (handle_left_click st px py geo o).dialogs =
        st.dialogs ++ [Dialog.error "Ошибка карты" err] ∧
      (handle_left_click st px py geo o).points =
        st.points ++ [{ lon := r.lon, lat := r.lat, color := "db" }] ∧
      (handle_left_click st px py geo o).address_label = r.address) := by
  refine ⟨?_, ?_, ?_, ?_, ?_, ?_⟩
  · intro st o err h
    have himg : ∀ s, (update_map s o).displayed_image = s.displayed_image :=
      fun s => (update_map_fail s o err h).1
    have hdlg : ∀ s, (update_map s o).dialogs =
        s.dialogs ++ [Dialog.error "Ошибка карты" err] :=
      fun s => (update_map_fail s o err h).2
    refine ⟨?_, ?_, ?_⟩ <;> simp [keyPressEvent, himg, hdlg, update_map_lon, update_map_zoom]
  · intro st o err h
    have himg : ∀ s, (update_map s o).displayed_image = s.displayed_image :=
      fun s => (update_map_fail s o err h).1
    have hdlg : ∀ s, (update_map s o).dialogs =
        s.dialogs ++ [Dialog.error "Ошибка карты" err] :=
      fun s => (update_map_fail s o err h).2
    refine ⟨?_, ?_, ?_⟩ <;> simp [keyPressEvent, himg, hdlg, update_map_lon, update_map_zoom]
  · intro st d o err hd h
    have himg : ∀ s, (update_map s o).displayed_image = s.displayed_image :=
      fun s => (update_map_fail s o err h).1
    have hdlg : ∀ s, (update_map s o).dialogs =
        s.dialogs ++ [Dialog.error "Ошибка карты" err] :=
      fun s => (update_map_fail s o err h).2
    refine ⟨?_, ?_, ?_⟩ <;> simp [wheelEvent, if_pos hd, himg, hdlg, update_map_zoom]
  · intro st label o err h
    have himg : ∀ s, (update_map s o).displayed_image = s.displayed_image :=
      fun s => (update_map_fail s o err h).1
    have hdlg : ∀ s, (update_map s o).dialogs =
        s.dialogs ++ [Dialog.error "Ошибка карты" err] :=
      fun s => (update_map_fail s o err h).2
    refine ⟨?_, ?_, ?_⟩ <;> simp [change_map_type, himg, hdlg, update_map_map_type]
  · intro st q geo o r err hq hg h
    have himg : ∀ s, (update_map s o).displayed_image = s.displayed_image :=
      fun s => (update_map_fail s o err h).1
    have hdlg : ∀ s, (update_map s o).dialogs =
        s.dialogs ++ [Dialog.error "Ошибка карты" err] :=
      fun s => (update_map_fail s o err h).2
    simp only [search_location]
    rw [if_neg hq]
    refine ⟨?_, ?_, ?_, ?_, ?_, ?_⟩ <;>
      simp [hg, himg, hdlg, update_map_lon, update_map_lat, update_map_zoom,
        update_map_points]
  · intro st px py geo o r err hb hg h
    have himg : ∀ s, (update_map s o).displayed_image = s.displayed_image :=
      fun s => (update_map_fail s o err h).1
    have hdlg : ∀ s, (update_map s o).dialogs =
        s.dialogs ++ [Dialog.error "Ошибка карты" err] :=
      fun s => (update_map_fail s o err h).2
    simp only [handle_left_click]
    rw [if_pos hb]
    refine ⟨?_, ?_, ?_, ?_⟩ <;>
      simp [hg, himg, hdlg, update_map_points, update_map_address]

/-- Witness for C7: a pan left from the initial state whose map fetch
hits a connection failure keeps the old image, shows the map-error
dialog and leaves the panned center in effect. -/
theorem fetch_failure_keeps_mutation_and_old_image_witness :
    get_map_image (HttpOutcome.connectionError : HttpOutcome Nat) =
      Except.error PyErr.connectionError ∧
    ((keyPressEvent initState Key.left HttpOutcome.connectionError).displayed_image =
      initState.displayed_image ∧
     (keyPressEvent initState Key.left HttpOutcome.connectionError).dialogs =
      initState.dialogs ++ [Dialog.error "Ошибка карты" PyErr.connectionError] ∧
     (keyPressEvent initState Key.left HttpOutcome.connectionError).lon =
      initState.lon - (2 / 10 : ℚ) * (1 / (initState.zoom_level : ℚ))) :=
  ⟨rfl,
   fetch_failure_keeps_mutation_and_old_image.1 initState
     HttpOutcome.connectionError PyErr.connectionError rfl⟩
